import Mathlib

/-!
Shallow embedding of `multiscanner/distributed/celery_worker.py`: the scan
task `multiscanner_celery`, its lifecycle callbacks `on_success` /
`on_failure` of `MultiScannerTask`, the periodic-task registration
`setup_periodic_tasks` and the maintenance task
`metricbeat_rollover_celery`.  Python dicts are modelled as association
lists (first occurrence wins, as dict keys are unique), exceptions as
`Except`, and external collaborators (scan engine, storage backends,
clocks, hostname) as an explicit environment record.
-/

namespace CeleryWorker

/-! ## Python dict primitives (association lists, unique keys) -/

/-- `m[k]` lookup: first binding of `k`, `none` models a `KeyError`. -/
def dlookup {α : Type} (m : List (String × α)) (k : String) : Option α :=
  match m with
  | [] => none
  | (k', v) :: rest => if k' = k then some v else dlookup rest k

/-- `m[k] = v`: replace the first binding of `k` in place, append if absent. -/
def dset {α : Type} (m : List (String × α)) (k : String) (v : α) :
    List (String × α) :=
  match m with
  | [] => [(k, v)]
  | (k', v') :: rest => if k' = k then (k, v) :: rest else (k', v') :: dset rest k v

/-- `del m[k]`: remove the binding of `k`. -/
def derase {α : Type} (m : List (String × α)) (k : String) :
    List (String × α) :=
  match m with
  | [] => []
  | (k', v') :: rest => if k' = k then derase rest k else (k', v') :: derase rest k

theorem dlookup_dset_self {α : Type} (m : List (String × α)) (k : String) (v : α) :
    dlookup (dset m k v) k = some v := by
  induction m with
  | nil => simp [dset, dlookup]
  | cons hd tl ih =>
    by_cases h : hd.1 = k <;> simp [dset, dlookup, h, ih]

theorem dlookup_dset_ne {α : Type} (m : List (String × α)) (k k' : String) (v : α)
    (h : k ≠ k') : dlookup (dset m k v) k' = dlookup m k' := by
  induction m with
  | nil => simp [dset, dlookup, h]
  | cons hd tl ih =>
    by_cases hh : hd.1 = k
    · simp [dset, dlookup, hh, h]
    · by_cases hk : hd.1 = k' <;> simp [dset, dlookup, hh, hk, ih, Ne.symm h]

theorem dlookup_derase_self {α : Type} (m : List (String × α)) (k : String) :
    dlookup (derase m k) k = none := by
  induction m with
  | nil => simp [derase, dlookup]
  | cons hd tl ih =>
    by_cases h : hd.1 = k <;> simp [derase, dlookup, h, ih]

theorem dlookup_derase_ne {α : Type} (m : List (String × α)) (k k' : String)
    (h : k ≠ k') : dlookup (derase m k) k' = dlookup m k' := by
  induction m with
  | nil => simp [derase, dlookup]
  | cons hd tl ih =>
    by_cases hh : hd.1 = k
    · simp [derase, dlookup, hh, ih, h]
    · by_cases hk : hd.1 = k' <;> simp [derase, dlookup, hh, hk, ih, Ne.symm h]

/-! ## Data model -/

/-- A value stored in the `Scan Metadata` dict: strings (hostname, the
`Modules Enabled` ratio, the scan time), the `Scan Config` sub-dict, or the
integer task id.  Caller-supplied metadata entries use any constructor. -/
inductive MetaVal : Type where
  | s : String → MetaVal
  | conf : List (String × Option Bool) → MetaVal
  | n : Nat → MetaVal
deriving DecidableEq, Repr

/-- The `Scan Metadata` dict. -/
abbrev Metadata := List (String × MetaVal)

/-- One per-file report of `parse_reports(multiscan(...), python=True)`:
module findings plus the `Scan Metadata` key added by the worker
(`none` before line 190 runs). -/
structure Report : Type where
  findings : List (String × String)
  scanMetadata : Option Metadata
deriving DecidableEq, Repr

/-- The scan configuration: each section name mapped to its `ENABLED`
field (`none` for a section without one, such as `main`).  Section names
are unique, as in a parsed config dict. -/
abbrev Config := List (String × Option Bool)

/-- Exceptions the task body can raise: `KeyError` on a missing dict key,
the `ValueError('Report failed to index')` of line 213. -/
inductive TaskError : Type where
  | keyError : String → TaskError
  | valueError : String → TaskError
deriving DecidableEq, Repr

/-- External collaborators of one `multiscanner_celery` run: the parsed
engine results (`parse_reports(multiscan([file_]))`), `gethostname()`, the
`datetime.now().isoformat()` of line 167, the backend-id list returned by
`storage_handler.store`, and the `datetime.now().isoformat()` taken inside
`on_failure` (line 117). -/
structure ScanEnv : Type where
  engineResults : List (String × Report)
  hostname : String
  now : String
  storeIds : List String
  callbackNow : String
deriving DecidableEq, Repr

/-! ## Module counting (lines 171-195) -/

/-- Python truthiness of the `module_list` argument: `None` and `[]` are
falsy (`if module_list:` on line 179). -/
def listTruthy : Option (List String) → Bool
  | none => false
  | some l => !l.isEmpty

/-- Lines 182-188: the loop over `config` skipping `main`, counting
entries whose `ENABLED` is `True`. -/
def countEnabled (config : Config) : Nat :=
  config.foldl
    (fun acc kv =>
      if kv.1 = "main" then acc
      else if kv.2 = some true then acc + 1 else acc) 0

/-- Lines 179-188: `total_enabled` is `len(module_list)` when
`module_list` is truthy, else the count of enabled config entries. -/
def totalEnabled (config : Config) (module_list : Option (List String)) : Nat :=
  if listTruthy module_list then (module_list.getD []).length
  else countEnabled config

/-- Line 175: `total_modules = len(config.keys()) - 1`.  Python `int`
subtraction, so `Int` (an empty config would yield `-1`). -/
def totalModules (config : Config) : Int :=
  (config.length : Int) - 1

/-- Lines 181-188: `sub_conf` stays `{}` when `module_list` is truthy
(the loop is skipped); otherwise it maps every non-`main` section to its
`ENABLED` value. -/
def subConf (config : Config) (module_list : Option (List String)) :
    List (String × Option Bool) :=
  if listTruthy module_list then []
  else config.filterMap
    (fun kv => if kv.1 = "main" then none else some kv)

/-- Lines 193-195: `'{} / {}'.format(total_enabled, total_modules)`. -/
def modulesEnabledStr (config : Config) (module_list : Option (List String)) :
    String :=
  s!"{totalEnabled config module_list} / {totalModules config}"

/-! ## The scan task body (lines 141-215) -/

/-- Lines 190-197: starting from the caller's `metadata` dict, write the
five worker keys in source order (each write overwrites an existing
binding). -/
def installMeta (metadata : Metadata) (hostname : String)
    (sub_conf : List (String × Option Bool)) (modulesEnabled : String)
    (scan_time : String) (task_id : Nat) : Metadata :=
  dset (dset (dset (dset (dset metadata
    "Worker Node" (.s hostname))
    "Scan Config" (.conf sub_conf))
    "Modules Enabled" (.s modulesEnabled))
    "Scan Time" (.s scan_time))
    "Task ID" (.n task_id)

/-- The body of `multiscanner_celery` (lines 141-215) after the engine
returned `env.engineResults`: attach the metadata to the entry under
`file_` (line 190, `KeyError` if absent), re-key it to
`original_filename` and delete the `file_` entry (lines 202-203), then
raise `ValueError` when the publisher returned no backend ids
(lines 206-213), else return the results dict. -/
def multiscanner_celery (env : ScanEnv) (file_ original_filename : String)
    (task_id : Nat) (metadata : Metadata) (config : Config)
    (module_list : Option (List String)) :
    Except TaskError (List (String × Report)) :=
  let results := env.engineResults
  let scan_time := env.now
  let sub_conf := subConf config module_list
  match dlookup results file_ with
  | none => .error (.keyError file_)
  | some rep =>
    let newMeta := installMeta metadata env.hostname sub_conf
      (modulesEnabledStr config module_list) scan_time task_id
    let results1 := dset results file_ { rep with scanMetadata := some newMeta }
    match dlookup results1 file_ with
    | none => .error (.keyError file_)
    | some cur =>
      let results2 := dset results1 original_filename cur
      let results3 := derase results2 file_
      let storage_ids := env.storeIds
      if storage_ids.isEmpty then .error (.valueError "Report failed to index")
      else .ok results3

/-! ## Lifecycle callbacks (lines 95-138) -/

/-- One row written through `db.update_task`. -/
structure DbUpdate : Type where
  task_id : Nat
  task_status : String
  timestamp : MetaVal
deriving DecidableEq, Repr

/-- `MultiScannerTask.on_failure` (lines 109-124): record `Failed` with
the wall-clock time of the callback. -/
def on_failure (task_id : Nat) (callbackNow : String) : DbUpdate :=
  { task_id := task_id, task_status := "Failed", timestamp := .s callbackNow }

/-- `MultiScannerTask.on_success` (lines 126-138): record `Complete` with
`retval[args[1]]['Scan Metadata']['Scan Time']`; each missing key is a
`KeyError` inside the callback. -/
def on_success (retval : List (String × Report)) (original_filename : String)
    (task_id : Nat) : Except TaskError DbUpdate :=
  match dlookup retval original_filename with
  | none => .error (.keyError original_filename)
  | some rep =>
    match rep.scanMetadata with
    | none => .error (.keyError "Scan Metadata")
    | some md =>
      match dlookup md "Scan Time" with
      | none => .error (.keyError "Scan Time")
      | some t =>
        .ok { task_id := task_id, task_status := "Complete", timestamp := t }

/-- Outcome of one wrapped task run: the task-DB updates written by the
callbacks, and the exception of a failing `on_success` callback (during
which no update is written). -/
structure TaskOutcome : Type where
  updates : List DbUpdate
  callbackError : Option TaskError
deriving DecidableEq, Repr

/-- One run of the celery task with its `MultiScannerTask` callbacks: a
raising body triggers `on_failure`, a returning body triggers
`on_success` on its return value. -/
def runTask (env : ScanEnv) (file_ original_filename : String) (task_id : Nat)
    (metadata : Metadata) (config : Config)
    (module_list : Option (List String)) : TaskOutcome :=
  match multiscanner_celery env file_ original_filename task_id metadata
      config module_list with
  | .error _ => { updates := [on_failure task_id env.callbackNow], callbackError := none }
  | .ok retval =>
    match on_success retval original_filename task_id with
    | .ok u => { updates := [u], callbackError := none }
    | .error e => { updates := [], callbackError := some e }

/-! ## Periodic tasks (lines 64-92) and metricbeat rollover (lines 231-262) -/

/-- A loaded storage handler, distinguished only by whether it is an
`ElasticSearchStorage` (line 252's `isinstance` check). -/
inductive StorageKind : Type where
  | elastic
  | other
deriving DecidableEq, Repr

/-- Configuration and collaborators of the rollover machinery: the
`metricbeat_enabled` and `metricbeat_rollover_days` entries of
`es_storage_config` (`none` when the key is absent) and
`storage_handler.loaded_storage`. -/
structure RolloverEnv : Type where
  metricbeat_enabled : Option Bool
  metricbeat_rollover_days : Option Nat
  loaded_storage : List StorageKind
deriving DecidableEq, Repr

/-- Result of one `metricbeat_rollover_celery` call: the
`delete_index(index_prefix, days)` invocations performed, the message of
an exception caught by the `except` clause (line 259, logged as a
warning), and whether the `finally` close ran.  The function always
returns normally: every exception is caught. -/
structure RolloverResult : Type where
  deletions : List (String × Nat)
  caughtError : Option String
  closed : Bool
deriving DecidableEq, Repr

/-- The `try` body of `metricbeat_rollover_celery` (lines 236-258):
feature-flag early return, `days` resolution with Python truthiness
(`None` and `0` are falsy), the `NameError` of line 248, and one
`delete_index('metricbeat', days)` per Elastic handler. -/
def rollover_body (env : RolloverEnv) (days : Option Nat) :
    Except String (List (String × Nat)) :=
  let metricbeat_enabled := env.metricbeat_enabled.getD true
  if !metricbeat_enabled then .ok []
  else
    let days1 : Nat :=
      match days with
      | some n => if n ≠ 0 then n else env.metricbeat_rollover_days.getD 7
      | none => env.metricbeat_rollover_days.getD 7
    if days1 = 0 then
      .error "name 'days' is not defined, check storage.ini for 'metricbeat_rollover_days' setting"
    else
      .ok (env.loaded_storage.filterMap
        (fun h => if h = StorageKind.elastic then some ("metricbeat", days1) else none))

/-- `metricbeat_rollover_celery(days)` (lines 231-262): run the body,
catch any exception and log it as a warning, close the handler in the
`finally` block. -/
def metricbeat_rollover_celery (env : RolloverEnv) (days : Option Nat) :
    RolloverResult :=
  match rollover_body env days with
  | .ok dels => { deletions := dels, caughtError := none, closed := true }
  | .error e => { deletions := [], caughtError := some e, closed := true }

/-- One periodic-task registration made by `setup_periodic_tasks`: the
task, its positional call arguments and keyword-argument names, and the
queue option. -/
structure PeriodicEntry : Type where
  taskName : String
  posArgs : List (Option Nat)
  kwargNames : List String
  queue : String
deriving DecidableEq, Repr

/-- The rollover registration of lines 82-92:
`args=(es_storage_config.get('metricbeat_rollover_days'), 7)` and
`kwargs=dict(config=...)`, on the low queue. -/
def rolloverEntry (env : RolloverEnv) : PeriodicEntry :=
  { taskName := "metricbeat_rollover_celery"
  , posArgs := [env.metricbeat_rollover_days, some 7]
  , kwargNames := ["config"]
  , queue := "low_tasks" }

/-- `setup_periodic_tasks` (lines 64-92): always register the ssdeep
comparison; register the rollover only when
`es_storage_config.get('metricbeat_enabled', True)` is truthy. -/
def setup_periodic_tasks (env : RolloverEnv) : List PeriodicEntry :=
  [{ taskName := "ssdeep_compare_celery", posArgs := [], kwargNames := []
   , queue := "low_tasks" }] ++
  (if env.metricbeat_enabled.getD true then [rolloverEntry env] else [])

/-- The parameter list of `def metricbeat_rollover_celery(days)`
(line 232): one parameter, no defaults, no `*args`/`**kwargs`. -/
def rolloverParams : List String := ["days"]

/-- Python call binding for a signature without defaults or varargs:
positional arguments must not outnumber the parameters, every keyword
must name a parameter not already bound positionally, and every
remaining parameter must be bound by a keyword.  `false` means the call
raises a `TypeError` before the function body runs. -/
def pythonCallOk (params : List String) (npos : Nat) (kwnames : List String) :
    Bool :=
  decide (npos ≤ params.length) &&
  kwnames.all (fun k => (params.drop npos).contains k) &&
  (params.drop npos).all (fun p => kwnames.contains p)

/-- Firing one scheduled occurrence of a rollover registration: when the
recorded arguments bind to `metricbeat_rollover_celery`'s signature the
task runs with the first positional argument as `days`; otherwise the
invocation raises a `TypeError` before any of the body runs (`none`). -/
def fireRolloverEntry (env : RolloverEnv) (e : PeriodicEntry) :
    Option RolloverResult :=
  if pythonCallOk rolloverParams e.posArgs.length e.kwargNames then
    some (metricbeat_rollover_celery env (e.posArgs.headD none))
  else none

/-! ## Reference-level view of the metadata installation (lines 190-197)

Python dicts are mutable objects passed by reference.  To state what
lines 190-197 do to the *caller's* `metadata` object, we model a heap of
dict objects addressed by identity: line 190 stores the address of the
caller's dict into the envelope's `Scan Metadata` slot, and lines
191-197 write through that address. -/

/-- Object store: address → metadata-dict object. -/
def Heap : Type := Nat → Metadata

/-- Lines 190-197 with explicit references: returns the post-heap and
the address held by the envelope's `Scan Metadata` slot (the caller's
`metadata` address, unchanged — the dict is installed by reference and
mutated in place). -/
def installMetaHeap (h : Heap) (metaAddr : Nat) (hostname : String)
    (sub_conf : List (String × Option Bool)) (modulesEnabled scan_time : String)
    (task_id : Nat) : Heap × Nat :=
  (fun a =>
    if a = metaAddr
    then installMeta (h a) hostname sub_conf modulesEnabled scan_time task_id
    else h a,
   metaAddr)

/-! ## Spec-side formulations (for comparison with the code) -/

/-- Spec-side count of enabled modules: entries other than the reserved
`main` entry whose `ENABLED` is true. -/
def specEnabledCount (config : Config) : Nat :=
  (config.filter (fun kv => kv.1 != "main" && kv.2 == some true)).length

/-- Spec-side numerator of the `Modules Enabled` ratio: the length of a
supplied non-empty module subset, else the enabled count (an empty
supplied subset behaves like no subset). -/
def specNumerator (config : Config) (module_list : Option (List String)) : Nat :=
  match module_list with
  | some l => if l = [] then specEnabledCount config else l.length
  | none => specEnabledCount config

/-- Spec-side denominator of the ratio: number of configuration entries
minus one for the reserved `main` entry. -/
def specDenominator (config : Config) : Int :=
  (config.length : Int) - 1

/-! ## Concrete fixtures -/

/-- A configuration of 4 modules plus the reserved `main` entry, 2 of
them enabled (the spec's worked example). -/
def cfgDemo : Config :=
  [("main", none), ("m1", some true), ("m2", some true),
   ("m3", some false), ("m4", some false)]

/-- A parsed engine report for one file. -/
def repDemo : Report := { findings := [("m1", "clean")], scanMetadata := none }

/-- A run where the engine found the file and the publisher wrote one
backend. -/
def envOk : ScanEnv :=
  { engineResults := [("tmp123", repDemo)]
  , hostname := "worker-1"
  , now := "2018-01-01T10:00:00"
  , storeIds := ["esid1"]
  , callbackNow := "2018-01-01T10:00:05" }

/-- Same run, but the publisher returned no backend ids. -/
def envNoStore : ScanEnv := { envOk with storeIds := [] }

/-- Same run, but the engine returned no results at all. -/
def envNoResults : ScanEnv := { envOk with engineResults := [] }

/-- A heap holding one caller-supplied metadata dict at every address. -/
def heapDemo : Heap := fun _ => [("Submitter", .s "alice")]

/-! ## Helper lemmas -/

theorem countEnabled_foldl (l : Config) (acc : Nat) :
    l.foldl
      (fun acc kv =>
        if kv.1 = "main" then acc
        else if kv.2 = some true then acc + 1 else acc) acc
    = acc + specEnabledCount l := by
  induction l generalizing acc with
  | nil => simp [specEnabledCount]
  | cons hd tl ih =>
    by_cases h1 : hd.1 = "main"
    · simp [specEnabledCount, List.filter_cons, h1, ih]
    · by_cases h2 : hd.2 = some true
      · simp only [List.foldl_cons, if_neg h1, if_pos h2, ih,
          specEnabledCount, List.filter_cons]
        simp [h1, h2]
        omega
      · simp only [List.foldl_cons, if_neg h1, if_neg h2, ih,
          specEnabledCount, List.filter_cons]
        simp [h1, h2]

theorem countEnabled_eq_spec (config : Config) :
    countEnabled config = specEnabledCount config := by
  simpa using countEnabled_foldl config 0

theorem on_success_status (retval : List (String × Report))
    (original_filename : String) (task_id : Nat) (u : DbUpdate)
    (h : on_success retval original_filename task_id = .ok u) :
    u.task_status = "Complete" := by
  unfold on_success at h
  split at h
  · exact Except.noConfusion h
  · split at h
    · exact Except.noConfusion h
    · split at h
      · exact Except.noConfusion h
      · cases h; rfl

theorem dlookup_installMeta_workerNode (md : Metadata) (hostname : String)
    (sc : List (String × Option Bool)) (me st : String) (tid : Nat) :
    dlookup (installMeta md hostname sc me st tid) "Worker Node"
      = some (.s hostname) := by
  unfold installMeta
  rw [dlookup_dset_ne _ _ _ _ (by decide), dlookup_dset_ne _ _ _ _ (by decide),
    dlookup_dset_ne _ _ _ _ (by decide), dlookup_dset_ne _ _ _ _ (by decide),
    dlookup_dset_self]

theorem dlookup_installMeta_scanConfig (md : Metadata) (hostname : String)
    (sc : List (String × Option Bool)) (me st : String) (tid : Nat) :
    dlookup (installMeta md hostname sc me st tid) "Scan Config"
      = some (.conf sc) := by
  unfold installMeta
  rw [dlookup_dset_ne _ _ _ _ (by decide), dlookup_dset_ne _ _ _ _ (by decide),
    dlookup_dset_ne _ _ _ _ (by decide), dlookup_dset_self]

theorem dlookup_installMeta_modulesEnabled (md : Metadata) (hostname : String)
    (sc : List (String × Option Bool)) (me st : String) (tid : Nat) :
    dlookup (installMeta md hostname sc me st tid) "Modules Enabled"
      = some (.s me) := by
  unfold installMeta
  rw [dlookup_dset_ne _ _ _ _ (by decide), dlookup_dset_ne _ _ _ _ (by decide),
    dlookup_dset_self]

theorem dlookup_installMeta_scanTime (md : Metadata) (hostname : String)
    (sc : List (String × Option Bool)) (me st : String) (tid : Nat) :
    dlookup (installMeta md hostname sc me st tid) "Scan Time"
      = some (.s st) := by
  unfold installMeta
  rw [dlookup_dset_ne _ _ _ _ (by decide), dlookup_dset_self]

theorem dlookup_installMeta_taskId (md : Metadata) (hostname : String)
    (sc : List (String × Option Bool)) (me st : String) (tid : Nat) :
    dlookup (installMeta md hostname sc me st tid) "Task ID"
      = some (.n tid) := by
  unfold installMeta
  rw [dlookup_dset_self]

theorem dlookup_installMeta_other (md : Metadata) (hostname : String)
    (sc : List (String × Option Bool)) (me st : String) (tid : Nat)
    (k : String)
    (hk : k ∉ ["Worker Node", "Scan Config", "Modules Enabled",
               "Scan Time", "Task ID"]) :
    dlookup (installMeta md hostname sc me st tid) k = dlookup md k := by
  simp only [List.mem_cons, List.not_mem_nil, or_false, not_or] at hk
  obtain ⟨h1, h2, h3, h4, h5⟩ := hk
  unfold installMeta
  rw [dlookup_dset_ne _ _ _ _ (Ne.symm h5), dlookup_dset_ne _ _ _ _ (Ne.symm h4),
    dlookup_dset_ne _ _ _ _ (Ne.symm h3), dlookup_dset_ne _ _ _ _ (Ne.symm h2),
    dlookup_dset_ne _ _ _ _ (Ne.symm h1)]

/-- Evaluation of the task body on the happy path up to the publisher
check: engine found the file, so the body reaches line 206 with the
re-keyed results dict. -/
theorem multiscanner_celery_eval (env : ScanEnv) (f o : String) (tid : Nat)
    (md : Metadata) (cfg : Config) (ml : Option (List String)) (rep : Report)
    (heng : dlookup env.engineResults f = some rep) :
    multiscanner_celery env f o tid md cfg ml =
      (if env.storeIds.isEmpty then
        .error (.valueError "Report failed to index")
      else
        .ok (derase
          (dset
            (dset env.engineResults f
              { rep with scanMetadata := some (installMeta md env.hostname
                  (subConf cfg ml) (modulesEnabledStr cfg ml) env.now tid) })
            o
            { rep with scanMetadata := some (installMeta md env.hostname
                (subConf cfg ml) (modulesEnabledStr cfg ml) env.now tid) })
          f)) := by
  simp only [multiscanner_celery, heng, dlookup_dset_self]

/-! ## Claims -/

/-- C1: when the scan engine produced a result for the file but the
Result Publisher (`storage_handler.store`) returned an empty backend-id
set, the task raises `ValueError('Report failed to index')` and the
job's final recorded status is `Failed` — the job is not treated as
complete even though scanning succeeded. -/
theorem C1_publish_failure_fails_job (env : ScanEnv) (f o : String)
    (tid : Nat) (md : Metadata) (cfg : Config) (ml : Option (List String))
    (rep : Report)
    (heng : dlookup env.engineResults f = some rep)
    (hstore : env.storeIds = []) :
    multiscanner_celery env f o tid md cfg ml =
      .error (.valueError "Report failed to index") ∧
    (runTask env f o tid md cfg ml).updates =
      [{ task_id := tid, task_status := "Failed"
       , timestamp := .s env.callbackNow }] := by
  have hbody : multiscanner_celery env f o tid md cfg ml =
      .error (.valueError "Report failed to index") := by
    rw [multiscanner_celery_eval env f o tid md cfg ml rep heng, hstore]
    rfl
  exact ⟨hbody, by simp [runTask, hbody, on_failure]⟩

/-- Witness for C1 at a concrete job: engine found `tmp123`, publisher
returned `[]`, recorded status is `Failed`. -/
theorem C1_publish_failure_fails_job_witness :
    multiscanner_celery envNoStore "tmp123" "file.exe" 5 [] cfgDemo none =
      .error (.valueError "Report failed to index") ∧
    (runTask envNoStore "tmp123" "file.exe" 5 [] cfgDemo none).updates =
      [{ task_id := 5, task_status := "Failed"
       , timestamp := .s "2018-01-01T10:00:05" }] :=
  C1_publish_failure_fails_job envNoStore "tmp123" "file.exe" 5 [] cfgDemo
    none repDemo rfl rfl

/-- C3: on a fully successful run (engine produced a result, publisher
returned backend ids, original filename distinct from the temp key), the
terminal `Complete` update's timestamp is the scan-completion time
embedded in the envelope (`env.now`, written as `Scan Metadata / Scan
Time` under the original-filename key) — not the callback's wall clock
`env.callbackNow`, which is unconstrained here. -/
theorem C3_complete_timestamp_from_envelope (env : ScanEnv) (f o : String)
    (tid : Nat) (md : Metadata) (cfg : Config) (ml : Option (List String))
    (rep : Report)
    (heng : dlookup env.engineResults f = some rep)
    (hstore : env.storeIds ≠ [])
    (hne : o ≠ f) :
    dlookup (installMeta md env.hostname (subConf cfg ml)
        (modulesEnabledStr cfg ml) env.now tid) "Scan Time"
      = some (.s env.now) ∧
    (multiscanner_celery env f o tid md cfg ml).toOption.bind
        (fun res => (dlookup res o).bind Report.scanMetadata)
      = some (installMeta md env.hostname (subConf cfg ml)
          (modulesEnabledStr cfg ml) env.now tid) ∧
    (runTask env f o tid md cfg ml).updates =
      [{ task_id := tid, task_status := "Complete"
       , timestamp := .s env.now }] := by
  have hempty : env.storeIds.isEmpty = false := by
    cases hs : env.storeIds with
    | nil => exact absurd hs hstore
    | cons a l => rfl
  have hbody := multiscanner_celery_eval env f o tid md cfg ml rep heng
  rw [hempty] at hbody
  simp only [Bool.false_eq_true, if_false] at hbody
  have hlook : dlookup
      (derase
        (dset
          (dset env.engineResults f
            { rep with scanMetadata := some (installMeta md env.hostname
                (subConf cfg ml) (modulesEnabledStr cfg ml) env.now tid) })
          o
          { rep with scanMetadata := some (installMeta md env.hostname
              (subConf cfg ml) (modulesEnabledStr cfg ml) env.now tid) })
        f) o =
      some { rep with scanMetadata := some (installMeta md env.hostname
        (subConf cfg ml) (modulesEnabledStr cfg ml) env.now tid) } := by
    rw [dlookup_derase_ne _ _ _ (Ne.symm hne), dlookup_dset_self]
  refine ⟨dlookup_installMeta_scanTime md env.hostname _ _ env.now tid, ?_, ?_⟩
  · simp [hbody, hlook, Except.toOption]
  · simp [runTask, hbody, on_success, hlook,
      dlookup_installMeta_scanTime md env.hostname _ _ env.now tid]

/-- Witness for C3 at a concrete job: the `Complete` update carries the
envelope's scan time `2018-01-01T10:00:00`, not the callback clock
`2018-01-01T10:00:05`. -/
theorem C3_complete_timestamp_from_envelope_witness :
    dlookup (installMeta [] envOk.hostname (subConf cfgDemo none)
        (modulesEnabledStr cfgDemo none) envOk.now 5) "Scan Time"
      = some (.s envOk.now) ∧
    (multiscanner_celery envOk "tmp123" "file.exe" 5 [] cfgDemo none).toOption.bind
        (fun res => (dlookup res "file.exe").bind Report.scanMetadata)
      = some (installMeta [] envOk.hostname (subConf cfgDemo none)
          (modulesEnabledStr cfgDemo none) envOk.now 5) ∧
    (runTask envOk "tmp123" "file.exe" 5 [] cfgDemo none).updates =
      [{ task_id := 5, task_status := "Complete"
       , timestamp := .s envOk.now }] :=
  C3_complete_timestamp_from_envelope envOk "tmp123" "file.exe" 5 [] cfgDemo
    none repDemo rfl (by decide) (by decide)

/-- C7: when the engine's parsed results lack the submitted file (zero
results), line 190 raises a `KeyError`, so the job ends `Failed` rather
than silently succeeding with an empty envelope. -/
theorem C7_empty_result_fails_job (env : ScanEnv) (f o : String) (tid : Nat)
    (md : Metadata) (cfg : Config) (ml : Option (List String))
    (heng : dlookup env.engineResults f = none) :
    multiscanner_celery env f o tid md cfg ml = .error (.keyError f) ∧
    (runTask env f o tid md cfg ml).updates =
      [{ task_id := tid, task_status := "Failed"
       , timestamp := .s env.callbackNow }] := by
  have hbody : multiscanner_celery env f o tid md cfg ml =
      .error (.keyError f) := by
    simp only [multiscanner_celery, heng]
  exact ⟨hbody, by simp [runTask, hbody, on_failure]⟩

/-- Witness for C7 at a concrete job with an empty results mapping. -/
theorem C7_empty_result_fails_job_witness :
    multiscanner_celery envNoResults "tmp123" "file.exe" 5 [] cfgDemo none =
      .error (.keyError "tmp123") ∧
    (runTask envNoResults "tmp123" "file.exe" 5 [] cfgDemo none).updates =
      [{ task_id := 5, task_status := "Failed"
       , timestamp := .s "2018-01-01T10:00:05" }] :=
  C7_empty_result_fails_job envNoResults "tmp123" "file.exe" 5 [] cfgDemo
    none rfl

/-- C9: when `original_filename` equals the temp-file key, the
re-key-then-delete of lines 202-203 removes the entry entirely: the body
still returns successfully, but the returned mapping lacks the
original-filename key, so `on_success`'s scan-time lookup raises a
`KeyError` and no status update is written. -/
theorem C9_rekey_same_name_loses_result (env : ScanEnv) (f : String)
    (tid : Nat) (md : Metadata) (cfg : Config) (ml : Option (List String))
    (rep : Report)
    (heng : dlookup env.engineResults f = some rep)
    (hstore : env.storeIds ≠ []) :
    (multiscanner_celery env f f tid md cfg ml).toOption ≠ none ∧
    dlookup ((multiscanner_celery env f f tid md cfg ml).toOption.getD []) f
      = none ∧
    (runTask env f f tid md cfg ml).updates = [] ∧
    (runTask env f f tid md cfg ml).callbackError = some (.keyError f) := by
  have hempty : env.storeIds.isEmpty = false := by
    cases hs : env.storeIds with
    | nil => exact absurd hs hstore
    | cons a l => rfl
  have hbody := multiscanner_celery_eval env f f tid md cfg ml rep heng
  rw [hempty] at hbody
  simp only [Bool.false_eq_true, if_false] at hbody
  have hlook : dlookup
      (derase
        (dset
          (dset env.engineResults f
            { rep with scanMetadata := some (installMeta md env.hostname
                (subConf cfg ml) (modulesEnabledStr cfg ml) env.now tid) })
          f
          { rep with scanMetadata := some (installMeta md env.hostname
              (subConf cfg ml) (modulesEnabledStr cfg ml) env.now tid) })
        f) f = none := dlookup_derase_self _ f
  refine ⟨?_, ?_, ?_, ?_⟩
  · simp [hbody, Except.toOption]
  · simp [hbody, hlook, Except.toOption]
  · simp [runTask, hbody, on_success, hlook]
  · simp [runTask, hbody, on_success, hlook]

/-- Witness for C9 at a concrete job whose original filename coincides
with the temp key `tmp123`. -/
theorem C9_rekey_same_name_loses_result_witness :
    (multiscanner_celery envOk "tmp123" "tmp123" 5 [] cfgDemo none).toOption
      ≠ none ∧
    dlookup ((multiscanner_celery envOk "tmp123" "tmp123" 5 [] cfgDemo
        none).toOption.getD []) "tmp123" = none ∧
    (runTask envOk "tmp123" "tmp123" 5 [] cfgDemo none).updates = [] ∧
    (runTask envOk "tmp123" "tmp123" 5 [] cfgDemo none).callbackError =
      some (.keyError "tmp123") :=
  C9_rekey_same_name_loses_result envOk "tmp123" 5 [] cfgDemo none repDemo
    rfl (by decide)

/-- C2 (counterexample): on a concrete successful job the complete
status-update trace of the run is the single terminal `Complete` write;
no `Running` status is ever recorded, so the dispatcher's first action
is not a persisted Queued→Running transition. -/
theorem C2_no_running_transition_counterexample :
    ((runTask envOk "tmp123" "file.exe" 5 [] cfgDemo none).updates.map
      DbUpdate.task_status) = ["Complete"] ∧
    "Running" ∉ ((runTask envOk "tmp123" "file.exe" 5 [] cfgDemo
      none).updates.map DbUpdate.task_status) := by
  constructor
  · rfl
  · decide

/-- C2 (amended): the worker records no Queued→Running transition and no
`startedAt`; the only status updates written by a run are terminal — at
most one, and it is `Complete` or `Failed`. -/
theorem C2_amended_only_terminal_updates (env : ScanEnv) (f o : String)
    (tid : Nat) (md : Metadata) (cfg : Config) (ml : Option (List String)) :
    ((runTask env f o tid md cfg ml).updates.map DbUpdate.task_status).all
      (fun s => s == "Complete" || s == "Failed") = true ∧
    (runTask env f o tid md cfg ml).updates.length ≤ 1 := by
  unfold runTask
  cases hb : multiscanner_celery env f o tid md cfg ml with
  | error e => simp [on_failure]
  | ok retval =>
    cases hs : on_success retval o tid with
    | ok u =>
      have := on_success_status retval o tid u hs
      simp [hs, this]
    | error e => simp [hs]

/-- C4 (counterexample): with the spec's 4-modules-plus-main config (2
enabled) and an explicitly supplied *empty* module subset, the code
reports `2 / 4` (the config count), not `0 / 4` (the subset's length) —
`if module_list:` treats an empty subset as absent. -/
theorem C4_modules_ratio_counterexample :
    modulesEnabledStr cfgDemo (some []) = "2 / 4" ∧
    ([] : List String).length = 0 ∧
    modulesEnabledStr cfgDemo (some []) ≠ "0 / 4" := by
  refine ⟨rfl, rfl, ?_⟩
  decide

/-- C4 (amended): `Modules Enabled` is `E / T` with `T` the number of
configuration entries minus one for the reserved `main` entry, and `E`
the supplied subset's length when the subset is non-empty; with no
subset, or an empty supplied subset, `E` is the count of non-`main`
entries with `ENABLED` true. -/
theorem C4_amended_modules_ratio (config : Config)
    (ml : Option (List String))
    (hk : (config.map Prod.fst).Nodup) :
    modulesEnabledStr config ml =
      s!"{specNumerator config ml} / {specDenominator config}" := by
  have he : totalEnabled config ml = specNumerator config ml := by
    unfold totalEnabled specNumerator listTruthy
    cases ml with
    | none => simpa [countEnabled] using countEnabled_foldl config 0
    | some l =>
      cases l with
      | nil => simpa [countEnabled] using countEnabled_foldl config 0
      | cons a t => simp
  have ht : totalModules config = specDenominator config := rfl
  unfold modulesEnabledStr
  rw [he, ht]

/-- Witness for C4 (amended) at the spec's worked examples: `2 / 4` with
no subset, `3 / 4` with a supplied subset of three. -/
theorem C4_amended_modules_ratio_witness :
    modulesEnabledStr cfgDemo none = "2 / 4" ∧
    modulesEnabledStr cfgDemo (some ["m1", "m3", "m4"]) = "3 / 4" := by
  constructor
  · exact (C4_amended_modules_ratio cfgDemo none (by decide)).trans (by decide)
  · exact (C4_amended_modules_ratio cfgDemo (some ["m1", "m3", "m4"])
      (by decide)).trans (by decide)

/-- C5: the retention days are resolved at fire time from the current
configuration — an unset `metricbeat_rollover_days` falls back to 7 and
the Elastic indices are cleaned with that value; a set-but-empty (falsy)
value has no usable fallback, so the body raises the line-248 error,
which the task catches and logs, returning normally (so the scheduler's
next occurrence is unaffected). -/
theorem C5_rollover_days_resolution (e1 e2 : RolloverEnv)
    (h1 : e1.metricbeat_enabled.getD true = true)
    (h2 : e1.metricbeat_rollover_days = none)
    (h3 : e2.metricbeat_enabled.getD true = true)
    (h4 : e2.metricbeat_rollover_days = some 0) :
    metricbeat_rollover_celery e1 none =
      { deletions := e1.loaded_storage.filterMap
          (fun h => if h = StorageKind.elastic
            then some ("metricbeat", 7) else none)
      , caughtError := none, closed := true } ∧
    metricbeat_rollover_celery e2 none =
      { deletions := []
      , caughtError := some "name 'days' is not defined, check storage.ini for 'metricbeat_rollover_days' setting"
      , closed := true } := by
  constructor
  · simp [metricbeat_rollover_celery, rollover_body, h1, h2]
  · simp [metricbeat_rollover_celery, rollover_body, h3, h4]

/-- Witness for C5: unset days clean Elastic indices with the fallback 7;
a set-but-zero value yields the caught-and-logged configuration error. -/
theorem C5_rollover_days_resolution_witness :
    metricbeat_rollover_celery
        { metricbeat_enabled := none, metricbeat_rollover_days := none
        , loaded_storage := [.elastic, .other] } none =
      { deletions := [("metricbeat", 7)], caughtError := none
      , closed := true } ∧
    metricbeat_rollover_celery
        { metricbeat_enabled := some true, metricbeat_rollover_days := some 0
        , loaded_storage := [.elastic] } none =
      { deletions := []
      , caughtError := some "name 'days' is not defined, check storage.ini for 'metricbeat_rollover_days' setting"
      , closed := true } := by
  have h := C5_rollover_days_resolution
    { metricbeat_enabled := none, metricbeat_rollover_days := none
    , loaded_storage := [.elastic, .other] }
    { metricbeat_enabled := some true, metricbeat_rollover_days := some 0
    , loaded_storage := [.elastic] } rfl rfl rfl rfl
  exact ⟨h.1.trans (by decide), h.2⟩

/-- C6: with `metricbeat_enabled` set to false, `setup_periodic_tasks`
registers no rollover entry, and a direct invocation of the rollover
task performs no index deletion and raises nothing — it returns after
the feature-flag check. -/
theorem C6_disabled_rollover_noop (env : RolloverEnv) (days : Option Nat)
    (h : env.metricbeat_enabled = some false) :
    (setup_periodic_tasks env).filter
        (fun e => e.taskName == "metricbeat_rollover_celery") = [] ∧
    metricbeat_rollover_celery env days =
      { deletions := [], caughtError := none, closed := true } := by
  constructor
  · simp [setup_periodic_tasks, h]
  · simp [metricbeat_rollover_celery, rollover_body, h]

/-- Witness for C6 at a concrete disabled configuration. -/
theorem C6_disabled_rollover_noop_witness :
    (setup_periodic_tasks
        { metricbeat_enabled := some false, metricbeat_rollover_days := some 3
        , loaded_storage := [.elastic] }).filter
        (fun e => e.taskName == "metricbeat_rollover_celery") = [] ∧
    metricbeat_rollover_celery
        { metricbeat_enabled := some false, metricbeat_rollover_days := some 3
        , loaded_storage := [.elastic] } (some 5) =
      { deletions := [], caughtError := none, closed := true } :=
  C6_disabled_rollover_noop
    { metricbeat_enabled := some false, metricbeat_rollover_days := some 3
    , loaded_storage := [.elastic] } (some 5) rfl

/-- C8: whenever the rollover task is registered (flag enabled), the
schedule records two positional arguments plus a `config` keyword for a
target whose signature has the single parameter `days`; the call cannot
bind, so every scheduled firing raises before any of the body runs. -/
theorem C8_rollover_schedule_arity_error (env : RolloverEnv)
    (h : env.metricbeat_enabled.getD true = true) :
    rolloverEntry env ∈ setup_periodic_tasks env ∧
    (rolloverEntry env).posArgs.length = 2 ∧
    (rolloverEntry env).kwargNames = ["config"] ∧
    rolloverParams.length = 1 ∧
    fireRolloverEntry env (rolloverEntry env) = none := by
  refine ⟨?_, rfl, rfl, rfl, ?_⟩
  · simp [setup_periodic_tasks, h]
  · simp [fireRolloverEntry, rolloverEntry, pythonCallOk, rolloverParams]

/-- Witness for C8 at a default configuration (flag unset, hence
enabled): the registered entry exists and its firing is a binding
error. -/
theorem C8_rollover_schedule_arity_error_witness :
    rolloverEntry
        { metricbeat_enabled := none, metricbeat_rollover_days := some 10
        , loaded_storage := [] } ∈
      setup_periodic_tasks
        { metricbeat_enabled := none, metricbeat_rollover_days := some 10
        , loaded_storage := [] } ∧
    (rolloverEntry
        { metricbeat_enabled := none, metricbeat_rollover_days := some 10
        , loaded_storage := [] }).posArgs.length = 2 ∧
    (rolloverEntry
        { metricbeat_enabled := none, metricbeat_rollover_days := some 10
        , loaded_storage := [] }).kwargNames = ["config"] ∧
    rolloverParams.length = 1 ∧
    fireRolloverEntry
        { metricbeat_enabled := none, metricbeat_rollover_days := some 10
        , loaded_storage := [] }
        (rolloverEntry
          { metricbeat_enabled := none, metricbeat_rollover_days := some 10
          , loaded_storage := [] }) = none :=
  C8_rollover_schedule_arity_error
    { metricbeat_enabled := none, metricbeat_rollover_days := some 10
    , loaded_storage := [] } rfl

/-- C10: lines 190-197 install the caller's metadata dict into the
envelope by reference (the envelope slot holds the caller's address) and
write the five worker keys through it: the caller's dict is mutated, the
five keys are overwritten with the worker's values, every other entry is
preserved, and no other heap object is touched. -/
theorem C10_metadata_installed_by_reference (h : Heap) (metaAddr : Nat)
    (hostname : String) (sc : List (String × Option Bool)) (me st : String)
    (tid : Nat) (k : String)
    (hk : k ∉ ["Worker Node", "Scan Config", "Modules Enabled",
               "Scan Time", "Task ID"])
    (a : Nat) (ha : a ≠ metaAddr) :
    (installMetaHeap h metaAddr hostname sc me st tid).2 = metaAddr ∧
    (installMetaHeap h metaAddr hostname sc me st tid).1 metaAddr =
      installMeta (h metaAddr) hostname sc me st tid ∧
    dlookup ((installMetaHeap h metaAddr hostname sc me st tid).1 metaAddr)
      "Worker Node" = some (.s hostname) ∧
    dlookup ((installMetaHeap h metaAddr hostname sc me st tid).1 metaAddr)
      "Scan Config" = some (.conf sc) ∧
    dlookup ((installMetaHeap h metaAddr hostname sc me st tid).1 metaAddr)
      "Modules Enabled" = some (.s me) ∧
    dlookup ((installMetaHeap h metaAddr hostname sc me st tid).1 metaAddr)
      "Scan Time" = some (.s st) ∧
    dlookup ((installMetaHeap h metaAddr hostname sc me st tid).1 metaAddr)
      "Task ID" = some (.n tid) ∧
    dlookup ((installMetaHeap h metaAddr hostname sc me st tid).1 metaAddr) k
      = dlookup (h metaAddr) k ∧
    (installMetaHeap h metaAddr hostname sc me st tid).1 a = h a := by
  have hslot : (installMetaHeap h metaAddr hostname sc me st tid).1 metaAddr =
      installMeta (h metaAddr) hostname sc me st tid := by
    simp [installMetaHeap]
  refine ⟨rfl, hslot, ?_, ?_, ?_, ?_, ?_, ?_, ?_⟩
  · rw [hslot]; exact dlookup_installMeta_workerNode _ _ _ _ _ _
  · rw [hslot]; exact dlookup_installMeta_scanConfig _ _ _ _ _ _
  · rw [hslot]; exact dlookup_installMeta_modulesEnabled _ _ _ _ _ _
  · rw [hslot]; exact dlookup_installMeta_scanTime _ _ _ _ _ _
  · rw [hslot]; exact dlookup_installMeta_taskId _ _ _ _ _ _
  · rw [hslot]; exact dlookup_installMeta_other _ _ _ _ _ _ k hk
  · simp [installMetaHeap, ha]

/-- Witness for C10 at a concrete heap: the caller-supplied `Submitter`
entry survives, the five worker keys are written through the caller's
address, and the unrelated object at address 1 is untouched. -/
theorem C10_metadata_installed_by_reference_witness :
    (installMetaHeap heapDemo 0 "worker-1" [] "2 / 4" "t0" 5).2 = 0 ∧
    (installMetaHeap heapDemo 0 "worker-1" [] "2 / 4" "t0" 5).1 0 =
      installMeta (heapDemo 0) "worker-1" [] "2 / 4" "t0" 5 ∧
    dlookup ((installMetaHeap heapDemo 0 "worker-1" [] "2 / 4" "t0" 5).1 0)
      "Worker Node" = some (.s "worker-1") ∧
    dlookup ((installMetaHeap heapDemo 0 "worker-1" [] "2 / 4" "t0" 5).1 0)
      "Scan Config" = some (.conf []) ∧
    dlookup ((installMetaHeap heapDemo 0 "worker-1" [] "2 / 4" "t0" 5).1 0)
      "Modules Enabled" = some (.s "2 / 4") ∧
    dlookup ((installMetaHeap heapDemo 0 "worker-1" [] "2 / 4" "t0" 5).1 0)
      "Scan Time" = some (.s "t0") ∧
    dlookup ((installMetaHeap heapDemo 0 "worker-1" [] "2 / 4" "t0" 5).1 0)
      "Task ID" = some (.n 5) ∧
    dlookup ((installMetaHeap heapDemo 0 "worker-1" [] "2 / 4" "t0" 5).1 0)
      "Submitter" = dlookup (heapDemo 0) "Submitter" ∧
    (installMetaHeap heapDemo 0 "worker-1" [] "2 / 4" "t0" 5).1 1 =
      heapDemo 1 :=
  C10_metadata_installed_by_reference heapDemo 0 "worker-1" [] "2 / 4" "t0" 5
    "Submitter" (by decide) 1 (by decide)

end CeleryWorker
